import Mathlib

/-!
Verification of the mock-interview backend's answer-evaluation engine and
session state machine.

The development shallowly embeds the Python sources over exact rationals:

* `NLP` models `app/services/nlp_service.py` (feature extraction).  The
  linguistic segmentation itself is performed by spaCy, an external
  collaborator; it is represented by an abstract `Doc` value (the list of
  sentences, each a list of tokens) that accompanies the raw text.
* `Fuzzy` models `app/services/fuzzy_service.py` (Mamdani fuzzy inference on
  the sampled universe 0..10, centroid defuzzification, fallback of 5.0 when
  no rule fires so the aggregated fuzzy set has zero area).
* `Workflow` models the session operations of `app/graph/workflow.py`,
  `app/agents/evaluator.py`, `app/agents/interviewer.py` and the API route
  handlers of `app/api/routes/interviews.py`.

Python's `round(x, n)` (banker's rounding) is embedded as exact decimal
round-half-to-even on `ℚ`.
-/

namespace MockInterview

/-- Round-half-to-even of a rational to an integer, the rounding mode used by
Python's built-in `round`. -/
def round_half_even (q : ℚ) : ℤ :=
  if q - ⌊q⌋ < 1/2 then ⌊q⌋
  else if 1/2 < q - ⌊q⌋ then ⌊q⌋ + 1
  else if ⌊q⌋ % 2 = 0 then ⌊q⌋ else ⌊q⌋ + 1

/-- Python's `round(q, n)`: round to `n` decimal digits, ties to even. -/
def python_round (n : ℕ) (q : ℚ) : ℚ :=
  (round_half_even (q * 10 ^ n) : ℚ) / 10 ^ n

namespace NLP

/-- A spaCy token, as consumed by `nlp_service.py`: surface text, lemma,
part-of-speech tag and the punctuation/space flags. -/
structure Token where
  text : String
  lemma_ : String
  pos_ : String
  is_punct : Bool
  is_space : Bool

/-- A spaCy document: the list of sentences, each a list of tokens.  The
segmentation is produced by the external spaCy model. -/
abbrev Doc := List (List Token)

/-- The external linguistic segmentation tool (spaCy pipeline): raw text to
segmented document. -/
abbrev Tokenizer := String → Doc

/-- Python's emptiness test `not text or not text.strip()`: true exactly when
the text consists solely of whitespace (possibly none). -/
def is_blank (text : String) : Bool :=
  text.toList.all (fun c => c.isWhitespace)

/-- Python's `text.lower()` (character-wise lowercasing; the configured
wordlists are already lowercase). -/
def lower (s : String) : String :=
  String.mk (s.toList.map Char.toLower)

/-- Python substring containment `w in t` over the characters of the text. -/
def containsSub (w : List Char) : List Char → Bool
  | [] => w.isEmpty
  | c :: rest => w.isPrefixOf (c :: rest) || containsSub w rest

/-- `occursIn w t` is Python's `w in t` for strings. -/
def occursIn (w t : String) : Bool :=
  containsSub w.toList t.toList

/-- `sum(1 for word in ws if word in t)` — one per wordlist entry occurring in
the text, as in `NLPService.extract_features`. -/
def countMatches (ws : List String) (t : String) : ℕ :=
  (ws.map (fun w => if occursIn w t then 1 else 0)).sum

/-- `NLPService.filler_words`. -/
def filler_words : List String :=
  ["eh", "este", "o sea", "digamos", "bueno", "tipo", "sabes",
   "entonces", "mhm", "pues", "básicamente", "literalmente", "así que", "umm", "uh"]

/-- `NLPService.confidence_indicators`. -/
def confidence_indicators : List String :=
  ["definitivamente", "ciertamente", "claramente", "obviamente",
   "precisamente", "exactamente", "absolutamente", "seguro",
   "indudablemente", "sin duda", "creo", "pienso", "sé", "confío", "experiencia"]

/-- `NLPService.technical_terms`. -/
def technical_terms : List String :=
  ["algorithm", "complexity", "database", "api", "framework",
   "architecture", "scalability", "optimization", "implementation",
   "design pattern", "microservice", "cache", "queue", "stack",
   "performance", "latency", "throughput", "distributed", "concurrent",
   "algoritmo", "complejidad", "base de datos", "arquitectura",
   "escalabilidad", "optimización", "implementación", "patrón de diseño",
   "microservicio", "cola", "pila", "rendimiento", "latencia",
   "concurrente", "distribuido"]

/-- Positive wordlist of `NLPService._calculate_sentiment`. -/
def positive_words : List String :=
  ["bien", "excelente", "gran", "positivo", "éxito", "lograr",
   "mejorar", "efectivo", "eficiente", "fuerte", "confiado", "capaz",
   "bueno", "genial", "increíble", "solución", "resolver"]

/-- Negative wordlist of `NLPService._calculate_sentiment`. -/
def negative_words : List String :=
  ["mal", "pobre", "fallar", "difícil", "problema", "asunto", "lucha",
   "débil", "incapaz", "no puedo", "nunca", "imposible", "confundido",
   "error", "malo", "complicado"]

/-- `NLPService._calculate_sentiment`: `(pos - neg) / (pos + neg)`, `0.0` when
neither list matches. -/
def calculate_sentiment (text : String) : ℚ :=
  let pos_count := countMatches positive_words text
  let neg_count := countMatches negative_words text
  let total := pos_count + neg_count
  if total = 0 then 0 else ((pos_count : ℚ) - (neg_count : ℚ)) / (total : ℚ)

/-- Key content lemmas (NOUN/PROPN/VERB) of one sentence, as a deduplicated
list standing for the Python set comprehension. -/
def sentence_keywords (sent : List Token) : List String :=
  ((sent.filter (fun t => t.pos_ == "NOUN" || t.pos_ == "PROPN" || t.pos_ == "VERB")).map
    (fun t => lower t.lemma_)).dedup

/-- Jaccard overlap `|A ∩ B| / |A ∪ B|` of two deduplicated keyword lists. -/
def jaccard (a b : List String) : ℚ :=
  ((a.filter (fun x => b.contains x)).length : ℚ) /
    ((a.length + (b.filter (fun x => !a.contains x)).length : ℕ) : ℚ)

/-- `NLPService._calculate_coherence`: `1.0` for at most one sentence,
otherwise the mean Jaccard overlap of consecutive sentences with nonempty
keyword sets, or `0.5` when no pair yields a defined overlap. -/
def calculate_coherence (doc : Doc) : ℚ :=
  if doc.length ≤ 1 then 1
  else
    let kws := doc.map sentence_keywords
    let overlaps := (kws.zip kws.tail).filterMap (fun p =>
      if 0 < p.1.length ∧ 0 < p.2.length then some (jaccard p.1 p.2) else none)
    if overlaps.length = 0 then 0.5 else overlaps.sum / (overlaps.length : ℚ)

/-- `NLPService._calculate_complexity`: `0.6 × diversity + 0.4 × length score`,
`0.0` for no words. -/
def calculate_complexity (words : List Token) : ℚ :=
  if words.length = 0 then 0
  else
    let unique_words := (words.map (fun t => lower t.lemma_)).dedup
    let diversity := (unique_words.length : ℚ) / (words.length : ℚ)
    let avg_word_length := ((words.map (fun t => t.text.length)).sum : ℚ) / (words.length : ℚ)
    let length_score := min (avg_word_length / 10) 1
    diversity * 0.6 + length_score * 0.4

/-- `NLPFeatures` of `app/models/schemas.py`; field defaults give the
zero-valued bundle `NLPFeatures()`. -/
structure NLPFeatures where
  word_count : ℕ := 0
  sentence_count : ℕ := 0
  avg_sentence_length : ℚ := 0
  sentiment_score : ℚ := 0
  confidence_indicators : ℕ := 0
  filler_words_count : ℕ := 0
  technical_terms_count : ℕ := 0
  coherence_score : ℚ := 0
  complexity_score : ℚ := 0
deriving DecidableEq

/-- The word tokens of a document: every token that is neither punctuation nor
space, across all sentences. -/
def docWords (doc : Doc) : List Token :=
  doc.flatten.filter (fun t => !t.is_punct && !t.is_space)

/-- `NLPService.extract_features`.  `text` is the raw answer; `doc` is the
segmentation the spaCy pipeline returns for it.  Empty or whitespace-only
text yields the zero bundle. -/
def extract_features (text : String) (doc : Doc) : NLPFeatures :=
  if is_blank text then {}
  else
    let text_lower := lower text
    let words := docWords doc
    let word_count := words.length
    let sentence_count := doc.length
    let avg_sentence_length : ℚ :=
      if 0 < sentence_count then (word_count : ℚ) / (sentence_count : ℚ) else 0
    let filler_count := countMatches filler_words text_lower
    let confidence_count := countMatches confidence_indicators text_lower
    let technical_count := countMatches technical_terms text_lower
    let sentiment := calculate_sentiment text_lower
    let coherence := calculate_coherence doc
    let complexity := calculate_complexity words
    { word_count := word_count
      sentence_count := sentence_count
      avg_sentence_length := python_round 2 avg_sentence_length
      sentiment_score := python_round 3 sentiment
      confidence_indicators := confidence_count
      filler_words_count := filler_count
      technical_terms_count := technical_count
      coherence_score := python_round 3 coherence
      complexity_score := python_round 3 complexity }

/-- `NLPService.get_feature_summary`. -/
def get_feature_summary (features : NLPFeatures) : List (String × String) :=
  [("length",
      if features.word_count < 50 then "muy breve"
      else if features.word_count < 100 then "breve"
      else if features.word_count < 200 then "moderada"
      else "detallada"),
   ("tone",
      if features.sentiment_score > 0.3 then "positivo"
      else if features.sentiment_score < -0.3 then "negativo"
      else "neutral"),
   ("coherence",
      if features.coherence_score > 0.7 then "muy coherente"
      else if features.coherence_score > 0.4 then "moderadamente coherente"
      else "necesita mejor estructura"),
   ("complexity",
      if features.complexity_score > 0.7 then "vocabulario sofisticado"
      else if features.complexity_score > 0.4 then "complejidad moderada"
      else "lenguaje simple")]

/-- The unrounded average sentence length computed inside `extract_features`
(`0` on the empty-input branch and for zero sentences). -/
def raw_avg_sentence_length (text : String) (doc : Doc) : ℚ :=
  if is_blank text then 0
  else if 0 < doc.length then ((docWords doc).length : ℚ) / (doc.length : ℚ) else 0

/-- The unrounded sentiment computed inside `extract_features`. -/
def raw_sentiment (text : String) : ℚ :=
  if is_blank text then 0 else calculate_sentiment (lower text)

/-- The unrounded coherence computed inside `extract_features`. -/
def raw_coherence (text : String) (doc : Doc) : ℚ :=
  if is_blank text then 0 else calculate_coherence doc

/-- The unrounded complexity computed inside `extract_features`. -/
def raw_complexity (text : String) (doc : Doc) : ℚ :=
  if is_blank text then 0 else calculate_complexity (docWords doc)

/-- The exact word count computed inside `extract_features`. -/
def raw_word_count (text : String) (doc : Doc) : ℕ :=
  if is_blank text then 0 else (docWords doc).length

/-- The exact sentence count computed inside `extract_features`. -/
def raw_sentence_count (text : String) (doc : Doc) : ℕ :=
  if is_blank text then 0 else doc.length

/-- The exact filler-word count computed inside `extract_features`. -/
def raw_filler_count (text : String) : ℕ :=
  if is_blank text then 0 else countMatches filler_words (lower text)

/-- The exact confidence-indicator count computed inside `extract_features`. -/
def raw_confidence_count (text : String) : ℕ :=
  if is_blank text then 0 else countMatches confidence_indicators (lower text)

/-- The exact technical-term count computed inside `extract_features`. -/
def raw_technical_count (text : String) : ℕ :=
  if is_blank text then 0 else countMatches technical_terms (lower text)

/-- A trivial segmentation (used where the tokenizer output is irrelevant). -/
def tok0 : Tokenizer := fun _ => []

/-- Sample answer with four words spread over three sentences. -/
def sample_text : String := "Corre. Salta. Corre más."

/-- The spaCy segmentation of `sample_text`: three sentences, four word
tokens, three punctuation tokens. -/
def sample_doc : Doc :=
  [[{ text := "Corre", lemma_ := "correr", pos_ := "VERB", is_punct := false, is_space := false },
    { text := ".", lemma_ := ".", pos_ := "PUNCT", is_punct := true, is_space := false }],
   [{ text := "Salta", lemma_ := "saltar", pos_ := "VERB", is_punct := false, is_space := false },
    { text := ".", lemma_ := ".", pos_ := "PUNCT", is_punct := true, is_space := false }],
   [{ text := "Corre", lemma_ := "correr", pos_ := "VERB", is_punct := false, is_space := false },
    { text := "más", lemma_ := "más", pos_ := "ADV", is_punct := false, is_space := false },
    { text := ".", lemma_ := ".", pos_ := "PUNCT", is_punct := true, is_space := false }]]

/-- A one-sentence segmentation of the text `"hola"`. -/
def one_sentence_doc : Doc :=
  [[{ text := "hola", lemma_ := "hola", pos_ := "INTJ", is_punct := false, is_space := false }]]

/-- An answer that repeats the filler word `eh` four times. -/
def filler_text : String := "eh eh eh eh este"

end NLP

namespace Fuzzy

open NLP (NLPFeatures)

/-- `EvaluationScore` of `app/models/schemas.py`: four scores in `[0, 10]`. -/
structure EvaluationScore where
  clarity : ℚ
  confidence : ℚ
  relevance : ℚ
  overall_score : ℚ
deriving DecidableEq

/-- The six fuzzy input variables of `FuzzyEvaluationService._setup_fuzzy_system`. -/
inductive InputVar where
  | word_count
  | coherence
  | confidence_level
  | technical_depth
  | filler_ratio
  | complexity
deriving DecidableEq, Fintype

/-- The three linguistic terms of every input variable. -/
inductive FuzzyTerm where
  | low
  | medium
  | high
deriving DecidableEq

/-- The four linguistic terms of every output variable. -/
inductive OutTerm where
  | poor
  | fair
  | good
  | excellent
deriving DecidableEq

/-- Triangular membership function `fuzz.trimf` with breakpoints `a ≤ b ≤ c`,
evaluated at a crisp input (for the breakpoints used here, linear
interpolation of the sampled universe coincides with the ideal triangle). -/
def trimf (a b c x : ℚ) : ℚ :=
  if x = b then 1
  else if a < x ∧ x < b then (x - a) / (b - a)
  else if b < x ∧ x < c then (c - x) / (c - b)
  else 0

/-- Breakpoints of the input membership functions, one line per assignment in
`FuzzyEvaluationService._setup_fuzzy_system` (lines 36-63). -/
def input_mf_params : InputVar → FuzzyTerm → ℚ × ℚ × ℚ
  | .word_count, .low => (0, 0, 4)
  | .word_count, .medium => (3, 5, 7)
  | .word_count, .high => (6, 10, 10)
  | .coherence, .low => (0, 0, 4)
  | .coherence, .medium => (3, 5, 7)
  | .coherence, .high => (6, 10, 10)
  | .confidence_level, .low => (0, 0, 4)
  | .confidence_level, .medium => (3, 5, 7)
  | .confidence_level, .high => (6, 10, 10)
  | .technical_depth, .low => (0, 0, 4)
  | .technical_depth, .medium => (3, 5, 7)
  | .technical_depth, .high => (6, 10, 10)
  | .filler_ratio, .low => (0, 0, 3)
  | .filler_ratio, .medium => (2, 5, 8)
  | .filler_ratio, .high => (7, 10, 10)
  | .complexity, .low => (0, 0, 4)
  | .complexity, .medium => (3, 5, 7)
  | .complexity, .high => (6, 10, 10)

/-- Breakpoints of the output membership functions (lines 66-70). -/
def output_mf_params : OutTerm → ℚ × ℚ × ℚ
  | .poor => (0, 0, 3)
  | .fair => (2, 4, 6)
  | .good => (5, 7, 9)
  | .excellent => (8, 10, 10)

/-- Membership degree of a crisp input in a term of an input variable. -/
def input_mf (v : InputVar) (t : FuzzyTerm) (x : ℚ) : ℚ :=
  trimf (input_mf_params v t).1 (input_mf_params v t).2.1 (input_mf_params v t).2.2 x

/-- Membership degree of an output-universe point in an output term. -/
def output_mf (t : OutTerm) (y : ℚ) : ℚ :=
  trimf (output_mf_params t).1 (output_mf_params t).2.1 (output_mf_params t).2.2 y

/-- Aggregated clarity output fuzzy set at `y`: Mamdani min/max over the five
clarity rules of `FuzzyEvaluationService._define_rules` (inputs: coherence and
filler ratio). -/
def clarity_agg (coh fil y : ℚ) : ℚ :=
  let s1 := min (input_mf .coherence .high coh) (input_mf .filler_ratio .low fil)
  let s2 := min (input_mf .coherence .high coh) (input_mf .filler_ratio .medium fil)
  let s3 := min (input_mf .coherence .medium coh) (input_mf .filler_ratio .low fil)
  let s4 := min (input_mf .coherence .medium coh) (input_mf .filler_ratio .medium fil)
  let s5 := max (input_mf .coherence .low coh) (input_mf .filler_ratio .high fil)
  max (min s1 (output_mf .excellent y))
    (max (min s2 (output_mf .good y))
      (max (min s3 (output_mf .good y))
        (max (min s4 (output_mf .fair y)) (min s5 (output_mf .poor y)))))

/-- Aggregated confidence output fuzzy set at `y` (inputs: confidence level
and word count). -/
def confidence_agg (conf wc y : ℚ) : ℚ :=
  let s1 := min (input_mf .confidence_level .high conf) (input_mf .word_count .high wc)
  let s2 := min (input_mf .confidence_level .high conf) (input_mf .word_count .medium wc)
  let s3 := min (input_mf .confidence_level .medium conf) (input_mf .word_count .medium wc)
  let s4 := min (input_mf .confidence_level .medium conf) (input_mf .word_count .low wc)
  let s5 := input_mf .confidence_level .low conf
  max (min s1 (output_mf .excellent y))
    (max (min s2 (output_mf .good y))
      (max (min s3 (output_mf .good y))
        (max (min s4 (output_mf .fair y)) (min s5 (output_mf .poor y)))))

/-- Aggregated relevance output fuzzy set at `y` (inputs: technical depth and
complexity). -/
def relevance_agg (tech comp y : ℚ) : ℚ :=
  let s1 := min (input_mf .technical_depth .high tech) (input_mf .complexity .high comp)
  let s2 := min (input_mf .technical_depth .high tech) (input_mf .complexity .medium comp)
  let s3 := min (input_mf .technical_depth .medium tech) (input_mf .complexity .medium comp)
  let s4 := min (input_mf .technical_depth .medium tech) (input_mf .complexity .low comp)
  let s5 := input_mf .technical_depth .low tech
  max (min s1 (output_mf .excellent y))
    (max (min s2 (output_mf .good y))
      (max (min s3 (output_mf .good y))
        (max (min s4 (output_mf .fair y)) (min s5 (output_mf .poor y)))))

/-- Area of the trapezoid between adjacent universe samples (spacing 1). -/
def seg_area (y1 y2 : ℚ) : ℚ := (y1 + y2) / 2

/-- First moment `∫ x·μ(x) dx` of the same trapezoid over `[i, i+1]`. -/
def seg_moment (i : ℕ) (y1 y2 : ℚ) : ℚ :=
  ((i : ℚ) * (2 * y1 + y2) + ((i : ℚ) + 1) * (y1 + 2 * y2)) / 6

/-- Total area of the aggregated output set sampled on the universe 0..10. -/
def total_area (μ : ℕ → ℚ) : ℚ :=
  ((List.range 10).map (fun i => seg_area (μ i) (μ (i + 1)))).sum

/-- Total first moment of the aggregated output set on the universe 0..10. -/
def total_moment (μ : ℕ → ℚ) : ℚ :=
  ((List.range 10).map (fun i => seg_moment i (μ i) (μ (i + 1)))).sum

/-- Centroid defuzzification.  `none` models the degenerate case in which the
aggregated set has zero area and the library signals a failure (the `except`
branch of `FuzzyEvaluationService.evaluate`). -/
def defuzz_centroid (μ : ℕ → ℚ) : Option ℚ :=
  if total_area μ = 0 then none else some (total_moment μ / total_area μ)

/-- Normalized fuzzy inputs, the dictionary returned by
`FuzzyEvaluationService._normalize_features`. -/
structure Normalized where
  word_count : ℚ
  coherence : ℚ
  confidence_level : ℚ
  technical_depth : ℚ
  filler_ratio : ℚ
  complexity : ℚ
deriving DecidableEq

/-- `FuzzyEvaluationService._normalize_features`. -/
def normalize_features (features : NLPFeatures) : Normalized :=
  let word_count_norm := min ((features.word_count : ℚ) / 150 * 10) 10
  let coherence_norm := features.coherence_score * 10
  let confidence_ratio :=
    (features.confidence_indicators : ℚ) / max ((features.word_count : ℚ) / 100) 1
  let confidence_norm := min (confidence_ratio * 5) 10
  let technical_ratio :=
    (features.technical_terms_count : ℚ) / max ((features.word_count : ℚ) / 100) 1
  let technical_norm := min (technical_ratio * 3) 10
  let filler_ratio :=
    (features.filler_words_count : ℚ) / max ((features.word_count : ℚ) / 100) 1
  let filler_norm := max (10 - filler_ratio * 5) 0
  let complexity_norm := features.complexity_score * 10
  { word_count := max 0 (min word_count_norm 10)
    coherence := max 0 (min coherence_norm 10)
    confidence_level := max 0 (min confidence_norm 10)
    technical_depth := max 0 (min technical_norm 10)
    filler_ratio := max 0 (min filler_norm 10)
    complexity := max 0 (min complexity_norm 10) }

/-- Clarity dimension of `FuzzyEvaluationService.evaluate`: centroid output of
the clarity control system, or the fallback `5.0` when inference fails. -/
def clarity_value (features : NLPFeatures) : ℚ :=
  (defuzz_centroid (fun i =>
    clarity_agg (normalize_features features).coherence
      (normalize_features features).filler_ratio (i : ℚ))).getD 5

/-- Confidence dimension of `FuzzyEvaluationService.evaluate`. -/
def confidence_value (features : NLPFeatures) : ℚ :=
  (defuzz_centroid (fun i =>
    confidence_agg (normalize_features features).confidence_level
      (normalize_features features).word_count (i : ℚ))).getD 5

/-- Relevance dimension of `FuzzyEvaluationService.evaluate`. -/
def relevance_value (features : NLPFeatures) : ℚ :=
  (defuzz_centroid (fun i =>
    relevance_agg (normalize_features features).technical_depth
      (normalize_features features).complexity (i : ℚ))).getD 5

/-- `FuzzyEvaluationService.evaluate`: the three defuzzified dimensions (with
fallback) combined into the weighted overall score, every component rounded
to two decimals. -/
def evaluate (features : NLPFeatures) (answer_text : String) : EvaluationScore :=
  let _ := answer_text
  let clarity := clarity_value features
  let confidence := confidence_value features
  let relevance := relevance_value features
  let overall := clarity * 0.3 + confidence * 0.3 + relevance * 0.4
  { clarity := python_round 2 clarity
    confidence := python_round 2 confidence
    relevance := python_round 2 relevance
    overall_score := python_round 2 overall }

/-- A feature bundle whose normalization (confidence level 5, word count 10)
fires none of the confidence rules, so confidence inference is degenerate. -/
def degenerate_features : NLPFeatures :=
  { word_count := 200, confidence_indicators := 2 }

end Fuzzy

namespace Workflow

open NLP (NLPFeatures Tokenizer extract_features get_feature_summary)
open Fuzzy (EvaluationScore)

/-- Session lifecycle status (`Literal["in_progress", "completed"]`). -/
inductive InterviewStatus where
  | in_progress
  | completed
deriving DecidableEq

/-- `Question` of `app/models/schemas.py`.  Timestamps are abstract instants
supplied by the caller (`datetime.utcnow()`). -/
structure Question where
  question_id : ℕ
  question_text : String
  category : String
  timestamp : ℕ
deriving DecidableEq

/-- Final feedback, produced by the external LLM feedback collaborator; the
session machine only stores it. -/
structure InterviewFeedback where
  overall_score : ℚ
  overall_summary : String
deriving DecidableEq

/-- `AnswerEvaluation` of `app/models/schemas.py`: one evaluation per answered
question (the stored NLP-feature dictionary is kept as the feature bundle plus
the human-readable summary). -/
structure AnswerEvaluation where
  question_id : ℕ
  answer_text : String
  scores : EvaluationScore
  nlp_features : NLPFeatures
  feature_summary : List (String × String)
  timestamp : ℕ
deriving DecidableEq

/-- `InterviewState` of `app/models/schemas.py`. -/
structure InterviewState where
  session_id : String
  role : String
  seniority : String
  focus_areas : List String
  current_question_id : ℕ
  total_questions : ℕ
  questions : List Question
  answers : List String
  evaluations : List AnswerEvaluation
  final_feedback : Option InterviewFeedback
  status : InterviewStatus
  created_at : ℕ
deriving DecidableEq

/-- `InterviewerAgent._determine_category`: category by position in the
interview. -/
def determine_category (question_id total_questions : ℕ) : String :=
  let progress : ℚ := (question_id : ℚ) / (total_questions : ℚ)
  if question_id = 1 then "opening"
  else if progress ≤ 0.3 then "foundational"
  else if progress ≤ 0.6 then "intermediate"
  else if progress ≤ 0.9 then "advanced"
  else "closing"

/-- `InterviewerAgent.generate_first_question`: id 1, category `opening`; the
question text comes from the external LLM. -/
def first_question (text : String) (now : ℕ) : Question :=
  { question_id := 1, question_text := text, category := "opening", timestamp := now }

/-- `InterviewerAgent.generate_next_question`: id `len(questions) + 1`,
category from `determine_category`; the text comes from the external LLM. -/
def generate_next_question (state : InterviewState) (text : String) (now : ℕ) : Question :=
  let question_id := state.questions.length + 1
  { question_id := question_id
    question_text := text
    category := determine_category question_id state.total_questions
    timestamp := now }

/-- `InterviewWorkflow.start_interview_incremental` with
`generate_first_question=False`: a fresh `in_progress` session with empty
question/answer/evaluation lists. -/
def start_interview_incremental (role seniority : String) (focus_areas : List String)
    (total_questions : ℕ) (session_id : String) (now : ℕ) : InterviewState :=
  { session_id := session_id
    role := role
    seniority := seniority
    focus_areas := focus_areas
    current_question_id := 0
    total_questions := total_questions
    questions := []
    answers := []
    evaluations := []
    final_feedback := none
    status := InterviewStatus.in_progress
    created_at := now }

/-- Appending a generated question and moving the current-question pointer to
it (`state.questions.append(q); state.current_question_id = q.question_id`, as
done by the route handlers and `add_streamed_question`). -/
def append_question (state : InterviewState) (q : Question) : InterviewState :=
  { state with questions := state.questions ++ [q], current_question_id := q.question_id }

/-- `EvaluatorAgent.evaluate_answer`: NLP features, fuzzy scores and the
feature summary for one question/answer pair. -/
def evaluate_answer (tok : Tokenizer) (now : ℕ) (question : Question)
    (answer : String) : AnswerEvaluation :=
  let features := extract_features answer (tok answer)
  { question_id := question.question_id
    answer_text := answer
    scores := Fuzzy.evaluate features answer
    nlp_features := features
    feature_summary := get_feature_summary features
    timestamp := now }

/-- The loop of `EvaluatorAgent.evaluate_all_answers`: enumerate the zipped
question/answer pairs, skip indices below `skip = len(evaluations)`, evaluate
the rest. -/
def eval_loop (tok : Tokenizer) (now skip : ℕ) :
    ℕ → List (Question × String) → List AnswerEvaluation
  | _, [] => []
  | i, qa :: rest =>
    if i < skip then eval_loop tok now skip (i + 1) rest
    else evaluate_answer tok now qa.1 qa.2 :: eval_loop tok now skip (i + 1) rest

/-- `EvaluatorAgent.evaluate_all_answers`: evaluations for every
answered-but-unevaluated index. -/
def evaluate_all_answers (tok : Tokenizer) (now : ℕ) (state : InterviewState) :
    List AnswerEvaluation :=
  eval_loop tok now state.evaluations.length 0 (state.questions.zip state.answers)

/-- `InterviewWorkflow.evaluate_all_answers`: extend the evaluation list with
the newly computed evaluations. -/
def workflow_evaluate_all_answers (tok : Tokenizer) (now : ℕ)
    (state : InterviewState) : InterviewState :=
  { state with evaluations := state.evaluations ++ evaluate_all_answers tok now state }

/-- `InterviewWorkflow.submit_answer`: append the answer and advance the
current-question pointer to the next question, or to `total_questions` when
every generated question is answered. -/
def submit_answer_w (state : InterviewState) (answer : String) : InterviewState :=
  let s := { state with answers := state.answers ++ [answer] }
  if h : s.answers.length < s.questions.length then
    { s with current_question_id := (s.questions.get ⟨s.answers.length, h⟩).question_id }
  else
    { s with current_question_id := s.total_questions }

/-- Errors signalled by the API layer. -/
inductive ApiError where
  | already_completed
deriving DecidableEq

/-- The `submit_answer` route handler of `app/api/routes/interviews.py`:
reject completed sessions, append the answer, then either trigger bulk
evaluation (all answers in) or append the externally generated next question.
`next_text` is the LLM-generated text of that next question. -/
def submit_answer_route (tok : Tokenizer) (now : ℕ) (next_text : String)
    (state : InterviewState) (answer : String) : InterviewState × Option ApiError :=
  if state.status = InterviewStatus.completed then (state, some ApiError.already_completed)
  else
    let s1 := { state with answers := state.answers ++ [answer] }
    if s1.total_questions ≤ s1.answers.length then
      let s2 :=
        if s1.evaluations.length < s1.answers.length then
          workflow_evaluate_all_answers tok now s1
        else s1
      (s2, none)
    else
      (append_question s1 (generate_next_question s1 next_text now), none)

/-- `generate_feedback_node`: store the collaborator-produced feedback and
mark the session completed. -/
def generate_feedback_node (fb : InterviewFeedback) (state : InterviewState) :
    InterviewState :=
  { state with final_feedback := some fb, status := InterviewStatus.completed }

/-- `InterviewWorkflow.get_feedback`: idempotent finalization — return the
session unchanged when feedback exists, otherwise evaluate any pending
answers and store the feedback. -/
def get_feedback_w (tok : Tokenizer) (now : ℕ) (fb : InterviewFeedback)
    (state : InterviewState) : InterviewState :=
  if state.final_feedback.isSome then state
  else
    let s :=
      if state.evaluations.length < state.answers.length then
        workflow_evaluate_all_answers tok now state
      else state
    generate_feedback_node fb s

/-- The session states reachable from a freshly created session by the defined
operations: question generation/append (first or follow-up), answer
recording (route handler and workflow variant), bulk evaluation, and
finalization.  LLM texts, timestamps and the feedback value are arbitrary
external inputs. -/
inductive Reachable (tok : Tokenizer) : InterviewState → Prop where
  | start : ∀ role seniority focus_areas total_questions session_id now,
      Reachable tok
        (start_interview_incremental role seniority focus_areas total_questions session_id now)
  | first_q : ∀ s text now, Reachable tok s →
      Reachable tok (append_question s (first_question text now))
  | next_q : ∀ s text now, Reachable tok s →
      Reachable tok (append_question s (generate_next_question s text now))
  | record : ∀ s answer next_text now, Reachable tok s →
      Reachable tok (submit_answer_route tok now next_text s answer).1
  | record_w : ∀ s answer, Reachable tok s → Reachable tok (submit_answer_w s answer)
  | eval_all : ∀ s now, Reachable tok s →
      Reachable tok (workflow_evaluate_all_answers tok now s)
  | finalize_op : ∀ s fb now, Reachable tok s → Reachable tok (get_feedback_w tok now fb s)

/-- A session already marked completed (feedback stored). -/
def completed_session : InterviewState :=
  generate_feedback_node { overall_score := 7, overall_summary := "ok" }
    (start_interview_incremental "Backend Developer" "mid" [] 3 "sid-1" 0)

/-- The state the `/start` route leaves behind for `total_questions = 1`:
`start_interview_incremental` (with its default `generate_first_question=True`)
appends a first question, then the route handler appends a second one. -/
def double_start_session : InterviewState :=
  append_question
    (append_question
      (start_interview_incremental "Software Engineer" "junior" [] 1 "sid-0" 0)
      (first_question "Cuéntame sobre ti" 0))
    (first_question "Cuéntame sobre ti" 0)

end Workflow

/-!
## Theorems

Helper lemmas followed by the claim theorems, witnesses and counterexamples.
-/


theorem round_half_even_nonneg {q : ℚ} (h : 0 ≤ q) : 0 ≤ round_half_even q := by
  have hf : (0 : ℤ) ≤ ⌊q⌋ := Int.floor_nonneg.mpr h
  unfold round_half_even
  split
  · exact hf
  · split
    · omega
    · split <;> omega

theorem round_half_even_le {q : ℚ} {B : ℤ} (h : q ≤ (B : ℚ)) :
    round_half_even q ≤ B := by
  have hfB : ⌊q⌋ ≤ B := by
    have := Int.floor_le_floor h
    simpa using this
  unfold round_half_even
  split
  · exact hfB
  · rename_i h1
    have h2 : (1 : ℚ)/2 ≤ q - ⌊q⌋ := not_lt.mp h1
    have h3 : (⌊q⌋ : ℚ) < q := by linarith
    have h4 : (⌊q⌋ : ℚ) < (B : ℚ) := lt_of_lt_of_le h3 h
    have h5 : ⌊q⌋ < B := by exact_mod_cast h4
    split
    · omega
    · split <;> omega

theorem python_round_nonneg {q : ℚ} (n : ℕ) (h : 0 ≤ q) : 0 ≤ python_round n q := by
  unfold python_round
  apply div_nonneg
  · exact_mod_cast round_half_even_nonneg (by positivity)
  · positivity

theorem python_round_le_ten {q : ℚ} (n : ℕ) (h : q ≤ 10) : python_round n q ≤ 10 := by
  unfold python_round
  have hpow : (0 : ℚ) < 10 ^ n := by positivity
  rw [div_le_iff₀ hpow]
  have h1 : q * 10 ^ n ≤ ((10 * 10 ^ n : ℤ) : ℚ) := by
    push_cast
    nlinarith
  have h2 : round_half_even (q * 10 ^ n) ≤ 10 * 10 ^ n := round_half_even_le h1
  have h3 : ((round_half_even (q * 10 ^ n) : ℤ) : ℚ) ≤ ((10 * 10 ^ n : ℤ) : ℚ) := by
    exact_mod_cast h2
  push_cast at h3
  linarith

theorem python_round_zero (n : ℕ) : python_round n 0 = 0 := by
  unfold python_round round_half_even
  norm_num

theorem round_half_even_intCast (k : ℤ) : round_half_even (k : ℚ) = k := by
  unfold round_half_even
  rw [Int.floor_intCast, sub_self]
  norm_num

theorem python_round_int (n : ℕ) (k : ℤ) : python_round n (k : ℚ) = (k : ℚ) := by
  unfold python_round
  have h : ((k : ℚ) * 10 ^ n) = ((k * 10 ^ n : ℤ) : ℚ) := by
    push_cast
    ring
  rw [h, round_half_even_intCast]
  have hpow : (0 : ℚ) < 10 ^ n := by positivity
  push_cast
  rw [mul_div_assoc, div_self (ne_of_gt hpow), mul_one]

namespace NLP

theorem countMatches_eq_filter (ws : List String) (t : String) :
    countMatches ws t = (ws.filter (fun w => occursIn w t)).length := by
  induction ws with
  | nil => rfl
  | cons a l ih =>
    unfold countMatches at ih ⊢
    simp only [List.map_cons, List.sum_cons, List.filter_cons]
    cases hb : occursIn a t
    · simp [hb, ih]
    · simp [hb, ih, Nat.add_comm]

/-- C8 (amended): for every non-blank text segmented into at most one
sentence, the extractor returns coherence exactly `1.0`.  (Blank text takes
the zero-bundle branch instead, see the counterexample.) -/
theorem coherence_single_sentence (text : String) (doc : Doc)
    (htext : is_blank text = false) (hdoc : doc.length ≤ 1) :
    (extract_features text doc).coherence_score = 1 := by
  unfold extract_features
  rw [if_neg (by simp [htext])]
  show python_round 3 (calculate_coherence doc) = 1
  unfold calculate_coherence
  rw [if_pos hdoc]
  exact_mod_cast python_round_int 3 1

/-- Witness for C8 at the one-word text `"hola"`. -/
theorem coherence_single_sentence_witness :
    (extract_features "hola" one_sentence_doc).coherence_score = 1 :=
  coherence_single_sentence "hola" one_sentence_doc (by decide) (by decide)

/-- Counterexample to C8 as stated: the empty text has sentence count `0 ≤ 1`
but `extract_features` returns the zero bundle, whose coherence is `0.0`, not
`1.0`. -/
theorem coherence_empty_counterexample :
    (extract_features "" []).sentence_count = 0 ∧
    (extract_features "" []).coherence_score = 0 ∧
    (extract_features "" []).coherence_score ≠ 1 := by
  refine ⟨by decide, by decide, by decide⟩

/-- C9 (amended): `avg_sentence_length` is rounded to 2 decimal places;
`sentiment_score`, `coherence_score` and `complexity_score` are rounded to 3;
the five count fields are the exact integer counts. -/
theorem rounding_boundary_spec (text : String) (doc : Doc) :
    (extract_features text doc).avg_sentence_length =
      python_round 2 (raw_avg_sentence_length text doc) ∧
    (extract_features text doc).sentiment_score = python_round 3 (raw_sentiment text) ∧
    (extract_features text doc).coherence_score = python_round 3 (raw_coherence text doc) ∧
    (extract_features text doc).complexity_score = python_round 3 (raw_complexity text doc) ∧
    (extract_features text doc).word_count = raw_word_count text doc ∧
    (extract_features text doc).sentence_count = raw_sentence_count text doc ∧
    (extract_features text doc).confidence_indicators = raw_confidence_count text ∧
    (extract_features text doc).filler_words_count = raw_filler_count text ∧
    (extract_features text doc).technical_terms_count = raw_technical_count text := by
  cases hb : is_blank text
  · refine ⟨?_, ?_, ?_, ?_, ?_, ?_, ?_, ?_, ?_⟩ <;>
      simp [extract_features, raw_avg_sentence_length, raw_sentiment, raw_coherence,
        raw_complexity, raw_word_count, raw_sentence_count, raw_confidence_count,
        raw_filler_count, raw_technical_count, hb]
  · refine ⟨?_, ?_, ?_, ?_, ?_, ?_, ?_, ?_, ?_⟩ <;>
      simp [extract_features, raw_avg_sentence_length, raw_sentiment, raw_coherence,
        raw_complexity, raw_word_count, raw_sentence_count, raw_confidence_count,
        raw_filler_count, raw_technical_count, hb, python_round_zero]

/-- Counterexample to C9 as stated: on a four-word, three-sentence answer the
raw average sentence length is `4/3`; the extractor returns it rounded to two
decimals (`1.33`), not to three (`1.333`). -/
theorem avg_rounding_counterexample :
    (extract_features sample_text sample_doc).avg_sentence_length = 133/100 ∧
    python_round 3 (raw_avg_sentence_length sample_text sample_doc) = 1333/1000 ∧
    (extract_features sample_text sample_doc).avg_sentence_length ≠
      python_round 3 (raw_avg_sentence_length sample_text sample_doc) := by
  have hb : is_blank sample_text = false := by decide
  have hw : ((docWords sample_doc).length : ℚ) = 4 := by
    norm_num [show (docWords sample_doc).length = 4 from by decide]
  have hs : ((sample_doc.length : ℕ) : ℚ) = 3 := by
    norm_num [show sample_doc.length = 3 from rfl]
  have hpos : 0 < sample_doc.length := by decide
  have e1 : (extract_features sample_text sample_doc).avg_sentence_length =
      python_round 2 ((4 : ℚ)/3) := by
    unfold extract_features
    rw [if_neg (by simp [hb])]
    show python_round 2 (if 0 < sample_doc.length then
      ((docWords sample_doc).length : ℚ) / ((sample_doc.length : ℕ) : ℚ) else 0) = _
    rw [if_pos hpos, hw, hs]
  have e2 : raw_avg_sentence_length sample_text sample_doc = (4 : ℚ)/3 := by
    unfold raw_avg_sentence_length
    rw [if_neg (by simp [hb]), if_pos hpos, hw, hs]
  have f1 : ⌊(4 : ℚ)/3 * 10 ^ 2⌋ = 133 := by
    rw [Int.floor_eq_iff]
    norm_num
  have f2 : ⌊(4 : ℚ)/3 * 10 ^ 3⌋ = 1333 := by
    rw [Int.floor_eq_iff]
    norm_num
  have p1 : python_round 2 ((4 : ℚ)/3) = 133/100 := by
    unfold python_round round_half_even
    rw [f1]
    norm_num
  have p2 : python_round 3 ((4 : ℚ)/3) = 1333/1000 := by
    unfold python_round round_half_even
    rw [f2]
    norm_num
  refine ⟨?_, ?_, ?_⟩
  · rw [e1, p1]
  · rw [e2, p2]
  · rw [e1, p1, e2, p2]
    norm_num

/-- C10: each of the three wordlist counts equals the number of distinct
wordlist entries occurring as substrings of the lowercased text, hence each
is bounded by its wordlist's size no matter how often a term repeats. -/
theorem wordlist_count_bounds (text : String) (doc : Doc) (h : is_blank text = false) :
    ((extract_features text doc).filler_words_count =
        (filler_words.filter (fun w => occursIn w (lower text))).length ∧
      (extract_features text doc).filler_words_count ≤ filler_words.length) ∧
    ((extract_features text doc).confidence_indicators =
        (confidence_indicators.filter (fun w => occursIn w (lower text))).length ∧
      (extract_features text doc).confidence_indicators ≤ confidence_indicators.length) ∧
    ((extract_features text doc).technical_terms_count =
        (technical_terms.filter (fun w => occursIn w (lower text))).length ∧
      (extract_features text doc).technical_terms_count ≤ technical_terms.length) := by
  have e1 : (extract_features text doc).filler_words_count =
      countMatches filler_words (lower text) := by
    unfold extract_features
    rw [if_neg (by simp [h])]
  have e2 : (extract_features text doc).confidence_indicators =
      countMatches confidence_indicators (lower text) := by
    unfold extract_features
    rw [if_neg (by simp [h])]
  have e3 : (extract_features text doc).technical_terms_count =
      countMatches technical_terms (lower text) := by
    unfold extract_features
    rw [if_neg (by simp [h])]
  have key : ∀ ws : List String,
      countMatches ws (lower text) =
        (ws.filter (fun w => occursIn w (lower text))).length ∧
      countMatches ws (lower text) ≤ ws.length := by
    intro ws
    refine ⟨countMatches_eq_filter ws _, ?_⟩
    rw [countMatches_eq_filter]
    exact List.length_filter_le _ _
  exact ⟨⟨e1.trans (key filler_words).1, e1 ▸ (key filler_words).2⟩,
    ⟨e2.trans (key confidence_indicators).1, e2 ▸ (key confidence_indicators).2⟩,
    ⟨e3.trans (key technical_terms).1, e3 ▸ (key technical_terms).2⟩⟩

/-- Witness for C10 at a text repeating the filler `eh` four times: the
filler count is 2 (`eh` and `este` each counted once). -/
theorem wordlist_count_bounds_witness :
    (((extract_features filler_text []).filler_words_count =
        (filler_words.filter (fun w => occursIn w (lower filler_text))).length ∧
      (extract_features filler_text []).filler_words_count ≤ filler_words.length) ∧
    ((extract_features filler_text []).confidence_indicators =
        (confidence_indicators.filter (fun w => occursIn w (lower filler_text))).length ∧
      (extract_features filler_text []).confidence_indicators ≤ confidence_indicators.length) ∧
    ((extract_features filler_text []).technical_terms_count =
        (technical_terms.filter (fun w => occursIn w (lower filler_text))).length ∧
      (extract_features filler_text []).technical_terms_count ≤ technical_terms.length)) ∧
    (extract_features filler_text []).filler_words_count = 2 :=
  ⟨wordlist_count_bounds filler_text [] (by decide), by decide⟩

end NLP

namespace Fuzzy

open NLP (NLPFeatures)

theorem trimf_nonneg (a b c x : ℚ) : 0 ≤ trimf a b c x := by
  unfold trimf
  split
  · norm_num
  · split
    · rename_i h
      exact div_nonneg (by linarith [h.1]) (by linarith [h.1, h.2])
    · split
      · rename_i h
        exact div_nonneg (by linarith [h.2]) (by linarith [h.1, h.2])
      · exact le_refl 0

theorem input_mf_nonneg (v : InputVar) (t : FuzzyTerm) (x : ℚ) : 0 ≤ input_mf v t x :=
  trimf_nonneg _ _ _ _

theorem output_mf_nonneg (t : OutTerm) (y : ℚ) : 0 ≤ output_mf t y :=
  trimf_nonneg _ _ _ _

theorem clarity_agg_nonneg (coh fil y : ℚ) : 0 ≤ clarity_agg coh fil y := by
  unfold clarity_agg
  exact le_max_of_le_left
    (le_min (le_min (input_mf_nonneg _ _ _) (input_mf_nonneg _ _ _)) (output_mf_nonneg _ _))

theorem confidence_agg_nonneg (conf wc y : ℚ) : 0 ≤ confidence_agg conf wc y := by
  unfold confidence_agg
  exact le_max_of_le_left
    (le_min (le_min (input_mf_nonneg _ _ _) (input_mf_nonneg _ _ _)) (output_mf_nonneg _ _))

theorem relevance_agg_nonneg (tech comp y : ℚ) : 0 ≤ relevance_agg tech comp y := by
  unfold relevance_agg
  exact le_max_of_le_left
    (le_min (le_min (input_mf_nonneg _ _ _) (input_mf_nonneg _ _ _)) (output_mf_nonneg _ _))

theorem seg_area_nonneg {y1 y2 : ℚ} (h1 : 0 ≤ y1) (h2 : 0 ≤ y2) : 0 ≤ seg_area y1 y2 := by
  unfold seg_area
  linarith

theorem seg_moment_nonneg (i : ℕ) {y1 y2 : ℚ} (h1 : 0 ≤ y1) (h2 : 0 ≤ y2) :
    0 ≤ seg_moment i y1 y2 := by
  unfold seg_moment
  have hi : (0 : ℚ) ≤ (i : ℚ) := Nat.cast_nonneg i
  apply div_nonneg _ (by norm_num)
  nlinarith

theorem seg_moment_le (i : ℕ) {y1 y2 : ℚ} (h1 : 0 ≤ y1) (h2 : 0 ≤ y2) (hi : i ≤ 9) :
    seg_moment i y1 y2 ≤ 10 * seg_area y1 y2 := by
  unfold seg_moment seg_area
  have hi9 : (i : ℚ) ≤ 9 := by exact_mod_cast hi
  have key : (i : ℚ) * (2 * y1 + y2) + ((i : ℚ) + 1) * (y1 + 2 * y2) ≤ 30 * (y1 + y2) := by
    nlinarith
  linarith

theorem total_area_nonneg (μ : ℕ → ℚ) (h : ∀ i, 0 ≤ μ i) : 0 ≤ total_area μ := by
  apply List.sum_nonneg
  intro x hx
  simp only [List.mem_map] at hx
  obtain ⟨i, _, rfl⟩ := hx
  exact seg_area_nonneg (h i) (h (i + 1))

theorem total_moment_nonneg (μ : ℕ → ℚ) (h : ∀ i, 0 ≤ μ i) : 0 ≤ total_moment μ := by
  apply List.sum_nonneg
  intro x hx
  simp only [List.mem_map] at hx
  obtain ⟨i, _, rfl⟩ := hx
  exact seg_moment_nonneg i (h i) (h (i + 1))

theorem sum_moment_le_aux (μ : ℕ → ℚ) (h : ∀ i, 0 ≤ μ i) :
    ∀ l : List ℕ, (∀ i ∈ l, i ≤ 9) →
      (l.map (fun i => seg_moment i (μ i) (μ (i + 1)))).sum ≤
        10 * (l.map (fun i => seg_area (μ i) (μ (i + 1)))).sum := by
  intro l
  induction l with
  | nil => simp
  | cons a t ih =>
    intro hmem
    simp only [List.map_cons, List.sum_cons]
    have h1 := seg_moment_le a (h a) (h (a + 1)) (hmem a (by simp))
    have h2 := ih (fun i hi => hmem i (by simp [hi]))
    linarith

theorem total_moment_le (μ : ℕ → ℚ) (h : ∀ i, 0 ≤ μ i) :
    total_moment μ ≤ 10 * total_area μ := by
  apply sum_moment_le_aux μ h
  intro i hi
  have := List.mem_range.mp hi
  omega

theorem defuzz_getD_bounds (μ : ℕ → ℚ) (h : ∀ i, 0 ≤ μ i) :
    0 ≤ (defuzz_centroid μ).getD 5 ∧ (defuzz_centroid μ).getD 5 ≤ 10 := by
  unfold defuzz_centroid
  split
  · norm_num
  · rename_i hne
    have hA : 0 ≤ total_area μ := total_area_nonneg μ h
    have hApos : 0 < total_area μ := lt_of_le_of_ne hA (Ne.symm hne)
    have hM : 0 ≤ total_moment μ := total_moment_nonneg μ h
    have hML : total_moment μ ≤ 10 * total_area μ := total_moment_le μ h
    constructor
    · simpa using div_nonneg hM hA
    · simpa using (div_le_iff₀ hApos).mpr (by linarith)

theorem clarity_value_bounds (features : NLPFeatures) :
    0 ≤ clarity_value features ∧ clarity_value features ≤ 10 :=
  defuzz_getD_bounds _ (fun _ => clarity_agg_nonneg _ _ _)

theorem confidence_value_bounds (features : NLPFeatures) :
    0 ≤ confidence_value features ∧ confidence_value features ≤ 10 :=
  defuzz_getD_bounds _ (fun _ => confidence_agg_nonneg _ _ _)

theorem relevance_value_bounds (features : NLPFeatures) :
    0 ≤ relevance_value features ∧ relevance_value features ≤ 10 :=
  defuzz_getD_bounds _ (fun _ => relevance_agg_nonneg _ _ _)

/-- C1: `FuzzyEvaluationService.evaluate` is total on every `NLPFeatures`
input: all four returned scores lie in `[0, 10]` (so the `EvaluationScore`
model validates and no error propagates), and any dimension whose fuzzy
inference yields no defined output (zero-area aggregated set) is set to the
fallback value `5.0`. -/
theorem evaluate_never_fails_and_bounded (features : NLPFeatures) (answer_text : String) :
    (0 ≤ (evaluate features answer_text).clarity ∧ (evaluate features answer_text).clarity ≤ 10) ∧
    (0 ≤ (evaluate features answer_text).confidence ∧
      (evaluate features answer_text).confidence ≤ 10) ∧
    (0 ≤ (evaluate features answer_text).relevance ∧
      (evaluate features answer_text).relevance ≤ 10) ∧
    (0 ≤ (evaluate features answer_text).overall_score ∧
      (evaluate features answer_text).overall_score ≤ 10) ∧
    (defuzz_centroid (fun i => clarity_agg (normalize_features features).coherence
        (normalize_features features).filler_ratio (i : ℚ)) = none →
      (evaluate features answer_text).clarity = 5) ∧
    (defuzz_centroid (fun i => confidence_agg (normalize_features features).confidence_level
        (normalize_features features).word_count (i : ℚ)) = none →
      (evaluate features answer_text).confidence = 5) ∧
    (defuzz_centroid (fun i => relevance_agg (normalize_features features).technical_depth
        (normalize_features features).complexity (i : ℚ)) = none →
      (evaluate features answer_text).relevance = 5) := by
  obtain ⟨hc0, hc1⟩ := clarity_value_bounds features
  obtain ⟨hf0, hf1⟩ := confidence_value_bounds features
  obtain ⟨hr0, hr1⟩ := relevance_value_bounds features
  have ec : (evaluate features answer_text).clarity = python_round 2 (clarity_value features) :=
    rfl
  have ef : (evaluate features answer_text).confidence =
      python_round 2 (confidence_value features) := rfl
  have er : (evaluate features answer_text).relevance =
      python_round 2 (relevance_value features) := rfl
  have eo : (evaluate features answer_text).overall_score =
      python_round 2 (clarity_value features * 0.3 + confidence_value features * 0.3 +
        relevance_value features * 0.4) := rfl
  refine ⟨⟨?_, ?_⟩, ⟨?_, ?_⟩, ⟨?_, ?_⟩, ⟨?_, ?_⟩, ?_, ?_, ?_⟩
  · rw [ec]; exact python_round_nonneg 2 hc0
  · rw [ec]; exact python_round_le_ten 2 hc1
  · rw [ef]; exact python_round_nonneg 2 hf0
  · rw [ef]; exact python_round_le_ten 2 hf1
  · rw [er]; exact python_round_nonneg 2 hr0
  · rw [er]; exact python_round_le_ten 2 hr1
  · rw [eo]; exact python_round_nonneg 2 (by linarith)
  · rw [eo]; exact python_round_le_ten 2 (by linarith)
  · intro h
    have hv : clarity_value features = 5 := by
      unfold clarity_value
      rw [h]
      rfl
    rw [ec, hv]
    exact_mod_cast python_round_int 2 5
  · intro h
    have hv : confidence_value features = 5 := by
      unfold confidence_value
      rw [h]
      rfl
    rw [ef, hv]
    exact_mod_cast python_round_int 2 5
  · intro h
    have hv : relevance_value features = 5 := by
      unfold relevance_value
      rw [h]
      rfl
    rw [er, hv]
    exact_mod_cast python_round_int 2 5

theorem confidence_agg_degenerate (y : ℚ) : confidence_agg 5 10 y = 0 := by
  have hhi : input_mf InputVar.confidence_level FuzzyTerm.high 5 = 0 := by
    norm_num [input_mf, input_mf_params, trimf]
  have hlo : input_mf InputVar.confidence_level FuzzyTerm.low 5 = 0 := by
    norm_num [input_mf, input_mf_params, trimf]
  have hwm : input_mf InputVar.word_count FuzzyTerm.medium 10 = 0 := by
    norm_num [input_mf, input_mf_params, trimf]
  have hwl : input_mf InputVar.word_count FuzzyTerm.low 10 = 0 := by
    norm_num [input_mf, input_mf_params, trimf]
  refine le_antisymm ?_ (confidence_agg_nonneg 5 10 y)
  unfold confidence_agg
  apply max_le
  · exact le_trans (min_le_left _ _) (le_trans (min_le_left _ _) (le_of_eq hhi))
  apply max_le
  · exact le_trans (min_le_left _ _) (le_trans (min_le_right _ _) (le_of_eq hwm))
  apply max_le
  · exact le_trans (min_le_left _ _) (le_trans (min_le_right _ _) (le_of_eq hwm))
  apply max_le
  · exact le_trans (min_le_left _ _) (le_trans (min_le_right _ _) (le_of_eq hwl))
  · exact le_trans (min_le_left _ _) (le_of_eq hlo)

theorem normalize_degenerate_confidence :
    (normalize_features degenerate_features).confidence_level = 5 ∧
    (normalize_features degenerate_features).word_count = 10 := by
  constructor <;>
    norm_num [normalize_features, degenerate_features, min_def, max_def]

theorem defuzz_degenerate :
    defuzz_centroid (fun i =>
      confidence_agg (normalize_features degenerate_features).confidence_level
        (normalize_features degenerate_features).word_count (i : ℚ)) = none := by
  obtain ⟨h1, h2⟩ := normalize_degenerate_confidence
  simp only [h1, h2]
  have harea : total_area (fun i => confidence_agg 5 10 (i : ℚ)) = 0 := by
    simp [total_area, confidence_agg_degenerate, seg_area]
  unfold defuzz_centroid
  rw [if_pos harea]

/-- Witness for C1 at a concrete degenerate input: `word_count = 200`,
`confidence_indicators = 2` normalizes to confidence level 5 and word count
10, which fires none of the confidence rules, so the confidence dimension is
the fallback 5.0; the overall score stays in bounds. -/
theorem evaluate_never_fails_and_bounded_witness :
    (0 ≤ (evaluate degenerate_features "").overall_score ∧
      (evaluate degenerate_features "").overall_score ≤ 10) ∧
    (evaluate degenerate_features "").confidence = 5 :=
  ⟨(evaluate_never_fails_and_bounded degenerate_features "").2.2.2.1,
   (evaluate_never_fails_and_bounded degenerate_features "").2.2.2.2.2.1 defuzz_degenerate⟩

/-- C2: every returned sub-score is the corresponding defuzzified dimension
rounded to 2 decimals, the overall score is
`0.3 × clarity + 0.3 × confidence + 0.4 × relevance` rounded to 2 decimals,
and in particular clarity 8, confidence 6 and relevance 7 combine to exactly
7. -/
theorem overall_score_weighted_formula (features : NLPFeatures) (answer_text : String) :
    (evaluate features answer_text).clarity = python_round 2 (clarity_value features) ∧
    (evaluate features answer_text).confidence = python_round 2 (confidence_value features) ∧
    (evaluate features answer_text).relevance = python_round 2 (relevance_value features) ∧
    (evaluate features answer_text).overall_score =
      python_round 2 (clarity_value features * 0.3 + confidence_value features * 0.3 +
        relevance_value features * 0.4) ∧
    python_round 2 ((8 : ℚ) * 0.3 + 6 * 0.3 + 7 * 0.4) = 7 := by
  refine ⟨rfl, rfl, rfl, rfl, ?_⟩
  have h : (8 : ℚ) * 0.3 + 6 * 0.3 + 7 * 0.4 = ((7 : ℤ) : ℚ) := by norm_num
  rw [h, python_round_int]
  norm_num

/-- C7 (amended): five of the six input variables share the membership
triangles low `(0,0,4)`, medium `(3,5,7)`, high `(6,10,10)`; `filler_ratio`
instead uses low `(0,0,3)`, medium `(2,5,8)`, high `(7,10,10)`. -/
theorem membership_params_spec :
    (∀ v : InputVar, v ≠ InputVar.filler_ratio →
      input_mf_params v FuzzyTerm.low = (0, 0, 4) ∧
      input_mf_params v FuzzyTerm.medium = (3, 5, 7) ∧
      input_mf_params v FuzzyTerm.high = (6, 10, 10)) ∧
    input_mf_params InputVar.filler_ratio FuzzyTerm.low = (0, 0, 3) ∧
    input_mf_params InputVar.filler_ratio FuzzyTerm.medium = (2, 5, 8) ∧
    input_mf_params InputVar.filler_ratio FuzzyTerm.high = (7, 10, 10) := by
  refine ⟨?_, rfl, rfl, rfl⟩
  intro v hv
  cases v <;> first
    | exact absurd rfl hv
    | exact ⟨rfl, rfl, rfl⟩

/-- Witness for C7 at the concrete variable `word_count`. -/
theorem membership_params_spec_witness :
    input_mf_params InputVar.word_count FuzzyTerm.low = (0, 0, 4) ∧
    input_mf_params InputVar.word_count FuzzyTerm.medium = (3, 5, 7) ∧
    input_mf_params InputVar.word_count FuzzyTerm.high = (6, 10, 10) :=
  membership_params_spec.1 InputVar.word_count (by decide)

/-- Counterexample to C7 as stated: the medium membership function of
`filler_ratio` is `triangle(2,5,8)`, not the claimed `triangle(3,5,7)`. -/
theorem membership_uniform_counterexample :
    input_mf_params InputVar.filler_ratio FuzzyTerm.medium ≠ (3, 5, 7) ∧
    input_mf_params InputVar.filler_ratio FuzzyTerm.medium = (2, 5, 8) := by
  decide

end Fuzzy

namespace Workflow

theorem eval_loop_length (tok : NLP.Tokenizer) (now skip : ℕ) :
    ∀ (l : List (Question × String)) (i : ℕ),
      (eval_loop tok now skip i l).length = l.length - (skip - i) := by
  intro l
  induction l with
  | nil =>
    intro i
    simp [eval_loop]
  | cons qa rest ih =>
    intro i
    unfold eval_loop
    split_ifs with h
    · rw [ih]
      simp only [List.length_cons]
      omega
    · simp only [List.length_cons, ih]
      omega

theorem eval_loop_eq_nil (tok : NLP.Tokenizer) (now skip : ℕ) :
    ∀ (l : List (Question × String)) (i : ℕ), l.length + i ≤ skip →
      eval_loop tok now skip i l = [] := by
  intro l
  induction l with
  | nil =>
    intro i _
    rfl
  | cons qa rest ih =>
    intro i hle
    simp only [List.length_cons] at hle
    unfold eval_loop
    rw [if_pos (by omega)]
    exact ih (i + 1) (by omega)

theorem workflow_eval_lengths (tok : NLP.Tokenizer) (now : ℕ) (s : InterviewState) :
    (workflow_evaluate_all_answers tok now s).evaluations.length =
      s.evaluations.length +
        (min s.questions.length s.answers.length - s.evaluations.length) ∧
    (workflow_evaluate_all_answers tok now s).questions = s.questions ∧
    (workflow_evaluate_all_answers tok now s).answers = s.answers ∧
    (workflow_evaluate_all_answers tok now s).total_questions = s.total_questions ∧
    (workflow_evaluate_all_answers tok now s).status = s.status := by
  refine ⟨?_, rfl, rfl, rfl, rfl⟩
  show (s.evaluations ++ evaluate_all_answers tok now s).length = _
  rw [List.length_append]
  unfold evaluate_all_answers
  rw [eval_loop_length, List.length_zip]
  omega

/-- C3: bulk evaluation is idempotent — a second application on the unchanged
session evaluates nothing (every index is below `len(evaluations)`) and
returns the state unchanged. -/
theorem evaluate_all_idempotent (tok : NLP.Tokenizer) (now1 now2 : ℕ)
    (s : InterviewState) :
    workflow_evaluate_all_answers tok now2 (workflow_evaluate_all_answers tok now1 s) =
      workflow_evaluate_all_answers tok now1 s := by
  have h1 := (workflow_eval_lengths tok now1 s).1
  have hq := (workflow_eval_lengths tok now1 s).2.1
  have ha := (workflow_eval_lengths tok now1 s).2.2.1
  have hnil : evaluate_all_answers tok now2 (workflow_evaluate_all_answers tok now1 s) = [] := by
    unfold evaluate_all_answers
    apply eval_loop_eq_nil
    rw [List.length_zip, hq, ha, h1]
    omega
  show { workflow_evaluate_all_answers tok now1 s with
      evaluations := (workflow_evaluate_all_answers tok now1 s).evaluations ++
        evaluate_all_answers tok now2 (workflow_evaluate_all_answers tok now1 s) } =
    workflow_evaluate_all_answers tok now1 s
  rw [hnil, List.append_nil]

/-- C4: submitting an answer to a completed session is rejected and returns
the session unchanged (no answer appended, no pointer moved); on an
`in_progress` session the answer is appended, so the answer count never
decreases across calls. -/
theorem record_answer_guard (tok : NLP.Tokenizer) (now : ℕ) (next_text : String)
    (state : InterviewState) (answer : String) :
    (state.status = InterviewStatus.completed →
      submit_answer_route tok now next_text state answer =
        (state, some ApiError.already_completed)) ∧
    (state.status = InterviewStatus.in_progress →
      (submit_answer_route tok now next_text state answer).2 = none ∧
      (submit_answer_route tok now next_text state answer).1.answers =
        state.answers ++ [answer]) ∧
    state.answers.length ≤
      (submit_answer_route tok now next_text state answer).1.answers.length := by
  by_cases hc : state.status = InterviewStatus.completed
  · refine ⟨fun _ => ?_, fun hp => ?_, ?_⟩
    · unfold submit_answer_route
      rw [if_pos hc]
    · exfalso
      rw [hp] at hc
      exact InterviewStatus.noConfusion hc
    · unfold submit_answer_route
      rw [if_pos hc]
  · unfold submit_answer_route
    rw [if_neg hc]
    dsimp only
    split_ifs with h1 h2 <;>
      exact ⟨fun h => absurd h hc, fun _ => ⟨rfl, rfl⟩,
        by simp [workflow_evaluate_all_answers, append_question]⟩

/-- Witness for C4 at a concrete completed session. -/
theorem record_answer_guard_witness :
    submit_answer_route NLP.tok0 0 "q" completed_session "una respuesta" =
      (completed_session, some ApiError.already_completed) :=
  (record_answer_guard NLP.tok0 0 "q" completed_session "una respuesta").1 rfl

/-- C6: the category assignment returns `opening` exactly for question 1 and
otherwise splits by the progress thresholds 0.3 / 0.6 / 0.9 (inclusive); for
ten questions this sends questions 1, 3, 6, 9, 10 to `opening`,
`foundational`, `intermediate`, `advanced`, `closing` respectively. -/
theorem determine_category_spec :
    (∀ total : ℕ, 1 ≤ total → determine_category 1 total = "opening") ∧
    (∀ q total : ℕ, 2 ≤ q → 1 ≤ total →
      determine_category q total =
        if 10 * q ≤ 3 * total then "foundational"
        else if 10 * q ≤ 6 * total then "intermediate"
        else if 10 * q ≤ 9 * total then "advanced"
        else "closing") ∧
    determine_category 1 10 = "opening" ∧
    determine_category 3 10 = "foundational" ∧
    determine_category 6 10 = "intermediate" ∧
    determine_category 9 10 = "advanced" ∧
    determine_category 10 10 = "closing" := by
  refine ⟨?_, ?_, by norm_num [determine_category], by norm_num [determine_category],
    by norm_num [determine_category], by norm_num [determine_category],
    by norm_num [determine_category]⟩
  · intro total _
    simp [determine_category]
  · intro q total hq ht
    have htQ : (0 : ℚ) < (total : ℚ) := by
      have : 0 < total := by omega
      exact_mod_cast this
    have key : ∀ a b : ℕ, ((q : ℚ) / (total : ℚ) ≤ (a : ℚ) / (b : ℚ)) →
        False ∨ True := fun _ _ _ => Or.inr trivial
    have e3 : ((q : ℚ) / (total : ℚ) ≤ 0.3) ↔ (10 * q ≤ 3 * total) := by
      rw [div_le_iff₀ htQ]
      constructor
      · intro h
        have hh : ((10 * q : ℕ) : ℚ) ≤ ((3 * total : ℕ) : ℚ) := by
          push_cast
          linarith
        exact_mod_cast hh
      · intro h
        have hh : ((10 * q : ℕ) : ℚ) ≤ ((3 * total : ℕ) : ℚ) := by exact_mod_cast h
        push_cast at hh
        linarith
    have e6 : ((q : ℚ) / (total : ℚ) ≤ 0.6) ↔ (10 * q ≤ 6 * total) := by
      rw [div_le_iff₀ htQ]
      constructor
      · intro h
        have hh : ((10 * q : ℕ) : ℚ) ≤ ((6 * total : ℕ) : ℚ) := by
          push_cast
          linarith
        exact_mod_cast hh
      · intro h
        have hh : ((10 * q : ℕ) : ℚ) ≤ ((6 * total : ℕ) : ℚ) := by exact_mod_cast h
        push_cast at hh
        linarith
    have e9 : ((q : ℚ) / (total : ℚ) ≤ 0.9) ↔ (10 * q ≤ 9 * total) := by
      rw [div_le_iff₀ htQ]
      constructor
      · intro h
        have hh : ((10 * q : ℕ) : ℚ) ≤ ((9 * total : ℕ) : ℚ) := by
          push_cast
          linarith
        exact_mod_cast hh
      · intro h
        have hh : ((10 * q : ℕ) : ℚ) ≤ ((9 * total : ℕ) : ℚ) := by exact_mod_cast h
        push_cast at hh
        linarith
    have lhs_eq : determine_category q total =
        (if q = 1 then "opening"
         else if (q : ℚ) / (total : ℚ) ≤ 0.3 then "foundational"
         else if (q : ℚ) / (total : ℚ) ≤ 0.6 then "intermediate"
         else if (q : ℚ) / (total : ℚ) ≤ 0.9 then "advanced"
         else "closing") := rfl
    rw [lhs_eq, if_neg (show ¬ q = 1 by omega)]
    by_cases c3 : 10 * q ≤ 3 * total
    · rw [if_pos (e3.mpr c3), if_pos c3]
    · rw [if_neg (fun hh => c3 (e3.mp hh)), if_neg c3]
      by_cases c6 : 10 * q ≤ 6 * total
      · rw [if_pos (e6.mpr c6), if_pos c6]
      · rw [if_neg (fun hh => c6 (e6.mp hh)), if_neg c6]
        by_cases c9 : 10 * q ≤ 9 * total
        · rw [if_pos (e9.mpr c9), if_pos c9]
        · rw [if_neg (fun hh => c9 (e9.mp hh)), if_neg c9]

/-- Witness for C6 at question 6 of 10. -/
theorem determine_category_spec_witness :
    determine_category 6 10 = "intermediate" := by
  have h := determine_category_spec.2.1 6 10 (by norm_num) (by norm_num)
  rw [h]
  norm_num

/-- C5 (amended): every reachable session state satisfies
`len(evaluations) ≤ len(answers)` and `len(evaluations) ≤ len(questions)`.
The full chain `len(answers) ≤ len(questions) ≤ total_question_count` of the
claim fails on the code (see the counterexample). -/
theorem reachable_evaluations_le (tok : NLP.Tokenizer) (s : InterviewState)
    (h : Reachable tok s) :
    s.evaluations.length ≤ s.answers.length ∧
      s.evaluations.length ≤ s.questions.length := by
  induction h with
  | start role seniority focus_areas total_questions session_id now =>
    simp [start_interview_incremental]
  | first_q s text now _ ih =>
    refine ⟨ih.1, ?_⟩
    simp only [append_question, List.length_append]
    have := ih.2
    omega
  | next_q s text now _ ih =>
    refine ⟨ih.1, ?_⟩
    simp only [append_question, List.length_append]
    have := ih.2
    omega
  | record s answer next_text now _ ih =>
    obtain ⟨ia, iq⟩ := ih
    by_cases hc : s.status = InterviewStatus.completed
    · unfold submit_answer_route
      rw [if_pos hc]
      exact ⟨ia, iq⟩
    · unfold submit_answer_route
      rw [if_neg hc]
      dsimp only
      split_ifs with h1 h2
      · have hl := workflow_eval_lengths tok now
          { s with answers := s.answers ++ [answer] }
        obtain ⟨l1, l2, l3, _, _⟩ := hl
        constructor
        · rw [l1, l3]
          simp only [List.length_append, List.length_cons, List.length_nil]
          omega
        · rw [l1, l2]
          simp only [List.length_append, List.length_cons, List.length_nil]
          omega
      · constructor
        · simp only [List.length_append, List.length_cons, List.length_nil]
          omega
        · exact iq
      · constructor
        · simp only [append_question, List.length_append, List.length_cons, List.length_nil]
          omega
        · simp only [append_question, List.length_append, List.length_cons, List.length_nil]
          omega
  | record_w s answer _ ih =>
    obtain ⟨ia, iq⟩ := ih
    unfold submit_answer_w
    dsimp only
    split
    · constructor
      · simp only [List.length_append, List.length_cons, List.length_nil]
        omega
      · exact iq
    · constructor
      · simp only [List.length_append, List.length_cons, List.length_nil]
        omega
      · exact iq
  | eval_all s now _ ih =>
    obtain ⟨ia, iq⟩ := ih
    obtain ⟨l1, l2, l3, _, _⟩ := workflow_eval_lengths tok now s
    constructor
    · rw [l1, l3]
      omega
    · rw [l1, l2]
      omega
  | finalize_op s fb now _ ih =>
    obtain ⟨ia, iq⟩ := ih
    unfold get_feedback_w
    split_ifs with hf he
    · exact ⟨ia, iq⟩
    · obtain ⟨l1, l2, l3, _, _⟩ := workflow_eval_lengths tok now s
      constructor
      · show (workflow_evaluate_all_answers tok now s).evaluations.length ≤
          (workflow_evaluate_all_answers tok now s).answers.length
        rw [l1, l3]
        omega
      · show (workflow_evaluate_all_answers tok now s).evaluations.length ≤
          (workflow_evaluate_all_answers tok now s).questions.length
        rw [l1, l2]
        omega
    · exact ⟨ia, iq⟩

/-- Witness for C5 (amended) at a freshly started session. -/
theorem reachable_evaluations_le_witness :
    (start_interview_incremental "Backend" "senior" [] 5 "sid-w" 0).evaluations.length ≤
        (start_interview_incremental "Backend" "senior" [] 5 "sid-w" 0).answers.length ∧
      (start_interview_incremental "Backend" "senior" [] 5 "sid-w" 0).evaluations.length ≤
        (start_interview_incremental "Backend" "senior" [] 5 "sid-w" 0).questions.length :=
  reachable_evaluations_le NLP.tok0 _
    (Reachable.start "Backend" "senior" [] 5 "sid-w" 0)

/-- Counterexample to C5 as stated: the `/start` route appends a first
question twice (once inside `start_interview_incremental`, once in the route
handler), so with `total_questions = 1` the reachable state has two questions
and the chain `len(questions) ≤ total_question_count` fails. -/
theorem length_chain_counterexample :
    Reachable NLP.tok0 double_start_session ∧
    ¬ (double_start_session.evaluations.length ≤ double_start_session.answers.length ∧
       double_start_session.answers.length ≤ double_start_session.questions.length ∧
       double_start_session.questions.length ≤ double_start_session.total_questions) := by
  constructor
  · exact Reachable.first_q _ "Cuéntame sobre ti" 0
      (Reachable.first_q _ "Cuéntame sobre ti" 0
        (Reachable.start "Software Engineer" "junior" [] 1 "sid-0" 0))
  · decide

end Workflow

end MockInterview
